import Mathlib

set_option maxRecDepth 4096

/-!
Verification development for the OneAgent memory-server scripts.

The Python sources under scrutiny are thin HTTP wrappers around a memory
library and a vector store.  We shallowly embed the wrapper logic:

* Python dicts of strings become association lists (`StrDict`), looked up
  by first match, which coincides with Python-dict lookup because dict
  keys are unique.
* JSON-ish response dicts hold heterogeneous values (`FieldVal`):
  strings, numbers (modelled as `ℚ`; the numeric values written by this
  code are exact literals such as `0.8`, `0.0` and `1.0`, so no
  floating-point rounding is involved), and nested string dicts.
* Calls into external libraries (mem0 cloud client, ChromaDB similarity
  query, Gemini embedding API) are modelled as explicit outcome
  parameters (`Except`-valued oracles): the wrapper code never inspects
  more of those results than we model.
* Fresh identifiers (`uuid.uuid4()`) and timestamps (`datetime.now()`)
  are passed in as explicit parameters.
-/

/-- Python dict with string keys and string values, as an insertion-ordered
association list.  Lookup takes the first matching key; Python dicts have
unique keys, so this is exact. -/
abbrev StrDict := List (String × String)

/-- Lookup `d.get(k)`, returning `None` when absent. -/
def dictFind (d : StrDict) (k : String) : Option String :=
  (d.find? (fun e => e.1 == k)).map (fun e => e.2)

/-- Lookup `d.get(k, dflt)`. -/
def dictGet (d : StrDict) (k dflt : String) : String :=
  (dictFind d k).getD dflt

/-- Does the dict map key `k` to exactly value `v`?  This is how a ChromaDB
`where` clause `{k: v}` selects records. -/
def hasKV (d : StrDict) (k v : String) : Bool :=
  dictFind d k == some v

/-- Python `{**base, **extra}`: keys of `base` in order (values overridden
by `extra` where present), followed by the keys of `extra` not in `base`. -/
def mergeDict (base extra : StrDict) : StrDict :=
  (base.map (fun e => (e.1, dictGet extra e.1 e.2)))
    ++ extra.filter (fun e => (dictFind base e.1).isNone)

/-- Python `a or b` on optional strings: `a` when present and non-empty
(truthy), otherwise `b`. -/
def pyOrElse (a b : Option String) : Option String :=
  match a with
  | some s => if s = "" then b else some s
  | none => b

/-- A JSON-ish value stored in a response dict: a string, a number, or a
nested string dict. -/
inductive FieldVal where
  | str (s : String)
  | num (x : ℚ)
  | dict (d : StrDict)
  deriving DecidableEq, Repr

/-- A Python dict holding JSON-ish values (the shape of the response
records built by the servers). -/
abbrev PyDict := List (String × FieldVal)

/-- Lookup `d.get(k)` on a JSON-ish dict. -/
def pyFind (d : PyDict) (k : String) : Option FieldVal :=
  (d.find? (fun e => e.1 == k)).map (fun e => e.2)

/-- Lookup `d.get(k, dflt)` on a JSON-ish dict. -/
def pyGet (d : PyDict) (k : String) (dflt : FieldVal) : FieldVal :=
  (pyFind d k).getD dflt

/-- Lookup `d.get(k, dflt)` when the stored value is a string (the shapes we build
always store strings under the keys we read this way). -/
def pyGetStr (d : PyDict) (k dflt : String) : String :=
  match pyFind d k with
  | some (.str s) => s
  | _ => dflt

/-- Character-list prefix test (Python `str.startswith`, spelled out so
that all substring reasoning is elementary). -/
def listStarts : List Char → List Char → Bool
  | [], _ => true
  | _ :: _, [] => false
  | a :: as, b :: bs => a == b && listStarts as bs

/-- Character-list substring test: Python `needle in haystack`. -/
def listSub (needle : List Char) : List Char → Bool
  | [] => listStarts needle []
  | hay@(_ :: rest) => listStarts needle hay || listSub needle rest

/-- Python `needle in haystack` on strings. -/
def strSub (needle hay : String) : Bool :=
  listSub needle.toList hay.toList

/-- Python `s.lower()`, character by character. -/
def pyLower (s : String) : String :=
  String.mk (s.toList.map Char.toLower)

/-- One element of a Python `messages` list: a dict that may carry
`content` and `role` keys (`none` models an absent key). -/
structure PyMsg where
  content : Option String
  role : Option String
  deriving DecidableEq, Repr

/-!
## Fallback in-process `Memory` store
`src/servers/mem0_memory_server_v2.py`, lines 40–85: the pure-Python
`Memory` class used when the mem0 library is unavailable.  Its state is
the dict `self.memories` (id ↦ record), modelled as an insertion-ordered
list of records with unique ids; `uuid.uuid4()` and
`datetime.now().isoformat()` are passed in as `freshId` / `now`.
-/

namespace FallbackMemory

/-- A stored record: `{'id','content','user_id','metadata','created_at'}`. -/
structure FbRec where
  id : String
  content : String
  user_id : String
  metadata : StrDict
  created_at : String
  deriving DecidableEq, Repr

/-- Python `messages[0].get('content', '') if messages else ''`. -/
def extractFirstContent (messages : List PyMsg) : String :=
  match messages with
  | [] => ""
  | m :: _ => m.content.getD ""

/-- The record `Memory.add` stores under the fresh id. -/
def newRec (messages : List PyMsg) (user_id : String) (metadata : StrDict)
    (freshId now : String) : FbRec :=
  { id := freshId, content := extractFirstContent messages,
    user_id := user_id, metadata := metadata, created_at := now }

/-- Method `Memory.add`: store a record under a fresh id and return that id. -/
def add (st : List FbRec) (messages : List PyMsg) (user_id : String)
    (metadata : StrDict) (freshId now : String) : List FbRec × String :=
  (st ++ [newRec messages user_id metadata freshId now], freshId)

/-- The dict appended for each hit of `Memory.search`. -/
def searchDict (r : FbRec) : PyDict :=
  [("id", .str r.id), ("memory", .str r.content), ("score", .num (4/5)),
   ("metadata", .dict r.metadata), ("created_at", .str r.created_at)]

/-- Method `Memory.search`, per-record test:
`mem_data['user_id'] == user_id and query.lower() in mem_data['content'].lower()`. -/
def matchesQuery (r : FbRec) (query user_id : String) : Bool :=
  r.user_id == user_id && strSub (pyLower query) (pyLower r.content)

/-- Method `Memory.search`: collect matching records, format, truncate to `limit`. -/
def search (st : List FbRec) (query user_id : String) (limit : Nat) :
    List PyDict :=
  ((st.filter (fun r => matchesQuery r query user_id)).map searchDict).take limit

/-- The dict appended for each record of `Memory.get_all`. -/
def allDict (r : FbRec) : PyDict :=
  [("id", .str r.id), ("memory", .str r.content),
   ("metadata", .dict r.metadata), ("created_at", .str r.created_at)]

/-- Method `Memory.get_all`: the user's records, formatted, truncated to `limit`. -/
def get_all (st : List FbRec) (user_id : String) (limit : Nat) : List PyDict :=
  ((st.filter (fun r => r.user_id == user_id)).map allDict).take limit

/-- Python `del self.memories[memory_id]`: remove the (unique) entry with
that id.  Spelled as removal of the first match, which is exact because
dict keys are unique. -/
def pyDel (memory_id : String) : List FbRec → List FbRec
  | [] => []
  | r :: rest => if r.id = memory_id then rest else r :: pyDel memory_id rest

/-- Method `Memory.delete`: delete the entry if present (returning `True`),
otherwise leave the store untouched and return `False`. -/
def delete (st : List FbRec) (memory_id : String) : List FbRec × Bool :=
  if st.any (fun r => r.id == memory_id) then (pyDel memory_id st, true)
  else (st, false)

end FallbackMemory

/-!
## OneAgent memory server
`src/servers/oneagent_memory_server.py`: a FastAPI wrapper over ChromaDB.
The ChromaDB collection is modelled as a list of records (id, stored
document, string metadata); `collection.get(where={"userId": u})` selects
the records whose metadata maps `"userId"` to `u`; the similarity query
`collection.query(...)` is an external call, modelled by passing its hit
list (record plus distance) in as a parameter.
-/

/-- One ChromaDB record: id, stored document, flat string metadata. -/
structure ChromaRec where
  id : String
  document : String
  metadata : StrDict
  deriving DecidableEq, Repr

/-- Call `collection.get(where={"userId": u})`. -/
def chromaGetUser (st : List ChromaRec) (u : String) : List ChromaRec :=
  st.filter (fun r => hasKV r.metadata "userId" u)

namespace OneAgentServer

/-- Constant `config.embedding_dimensions` (hard-coded 768). -/
def embedding_dimensions : Nat := 768

/-- Method `OneAgentMemorySystem.generate_embedding`, lines 239–264.  The call to
`genai.embed_content` is the external provider, modelled by its outcome
(`.error` = the call raised).  The code truncates an over-long embedding
to 768 components; a short embedding raises a `ValueError` *inside* the
`try`, so — like a provider error — it is caught by the `except` and
replaced by the all-zero 768-vector.  Embedding components are modelled
as `ℚ` (only the literal `0.0` and element selection occur here). -/
def generate_embedding (provider : Except String (List ℚ)) : List ℚ :=
  match provider with
  | .error _ => List.replicate embedding_dimensions 0
  | .ok emb =>
    if embedding_dimensions < emb.length then emb.take embedding_dimensions
    else if emb.length < embedding_dimensions then
      List.replicate embedding_dimensions 0
    else emb

/-- The `MemoryResponse` pydantic model (lines 185–193). -/
structure MemoryResponse where
  id : String
  content : String
  metadata : StrDict
  userId : String
  createdAt : String
  updatedAt : String
  relevanceScore : Option ℚ
  deriving DecidableEq, Repr

/-- Build a `MemoryResponse` from a ChromaDB record, as both branches of
`search_memories` do. -/
def toMemoryResponse (r : ChromaRec) (u : String) (rel : Option ℚ) :
    MemoryResponse :=
  { id := r.id, content := r.document, metadata := r.metadata,
    userId := dictGet r.metadata "userId" u,
    createdAt := dictGet r.metadata "createdAt" "",
    updatedAt := dictGet r.metadata "updatedAt" "",
    relevanceScore := rel }

/-- Method `OneAgentMemorySystem.search_memories`, lines 488–545.
`hits` is the outcome of the external `collection.query` call (record and
distance per hit; relevance is `1 - distance`).  A query is "provided"
when it is a non-empty string (Python truthiness).  With a query and no
semantic hits, the code rescans `collection.get(where={"userId": u})`
and returns the records whose document equals the query, with relevance
`1.0`.  Without a query, the code indexes ChromaDB's *flat* `get` result
as if it were nested: for a non-empty result, `metadatas[0][i]` looks up
an `int` key in a `dict` and raises `KeyError` (caught and re-raised as
HTTP 500), modelled as `.error`; an empty result yields `[]`. -/
def search_memories (st : List ChromaRec) (hits : List (ChromaRec × ℚ))
    (query : Option String) (u : String) (limit : Nat) :
    Except String (List MemoryResponse) :=
  let q := query.getD ""
  if q = "" then
    if ((chromaGetUser st u).take limit).isEmpty then .ok []
    else .error "Memory search failed: 0"
  else
    let memories := hits.map (fun p => toMemoryResponse p.1 u (some (1 - p.2)))
    if memories.isEmpty then
      .ok (((chromaGetUser st u).filter (fun r => r.document == q)).map
        (fun r => toMemoryResponse r u (some 1)))
    else .ok memories

/-- Method `OneAgentMemorySystem.delete_memory`, lines 547–565.  The wrapper
first runs `collection.get(ids=[memory_id], where={"userId": user_id})`
and, when nothing matches both the id and the user, raises
`HTTPException(404)` — which its own blanket `except Exception` rewraps
as `HTTPException(500, "Memory deletion failed: …")`; either way the
request errors out (`.error` carries the final status) and the store is
untouched.  Only when the ownership probe succeeds is
`collection.delete(ids=[memory_id])` forwarded. -/
def delete_memory (st : List ChromaRec) (memory_id user_id : String) :
    Except Nat Bool × List ChromaRec :=
  if (st.filter (fun r => r.id == memory_id
        && hasKV r.metadata "userId" user_id)).isEmpty then
    (.error 500, st)
  else
    (.ok true, st.filter (fun r => !(r.id == memory_id)))

/-- Constant `MCP_PROTOCOL_VERSION = "2025-06-18"` (line 58). -/
def MCP_PROTOCOL_VERSION : String := "2025-06-18"

/-- Python `Authorization.startswith("Bearer ")`, on the character
list. -/
def bearerStarts (a : String) : Bool :=
  listStarts "Bearer ".toList a.toList

/-- Python `Authorization.split(" ", 1)[1]` for a header that starts with
`"Bearer "`: the first space then sits at index 6 (no earlier character
of `"Bearer"` is a space), so the split remainder is the suffix from
index 7. -/
def bearerToken (a : String) : String :=
  String.mk (a.toList.drop 7)

/-- The Python test
`not Authorization or not Authorization.startswith("Bearer ") or Authorization.split(" ", 1)[1] != MEM0_API_KEY`,
negated: the header is present, non-empty, starts with `"Bearer "`, and
the rest after the first space equals the key. -/
def authHeaderOk (auth : Option String) (key : String) : Bool :=
  match auth with
  | none => false
  | some a => !(a == "") && bearerStarts a && bearerToken a == key

/-- Dependency `require_mcp_headers`, lines 74–81: `some status` = the dependency
raised `HTTPException(status)`, `none` = the request may proceed. -/
def require_mcp_headers (auth ver : Option String) (key : String) :
    Option Nat :=
  if !(authHeaderOk auth key) then some 401
  else if ver ≠ some MCP_PROTOCOL_VERSION then some 426
  else none

/-- FastAPI `Depends(require_mcp_headers)` as used by every
`/v1/memories…` endpoint (lines 952–1072): the dependency runs before
the handler body; if it raises, the handler — `op`, an arbitrary memory
operation returning a response and a possibly-updated store — never
runs and the store is unchanged. -/
def endpointWithHeaders {α : Type} (op : List ChromaRec → (Nat × α) × List ChromaRec)
    (errBody : Nat → α) (auth ver : Option String) (key : String)
    (st : List ChromaRec) : (Nat × α) × List ChromaRec :=
  match require_mcp_headers auth ver key with
  | some s => ((s, errBody s), st)
  | none => op st

end OneAgentServer

/-!
## Gemini memory server v2
`src/servers/gemini_mem0_server_v2.py`: a raw `BaseHTTPRequestHandler`
wrapper over ChromaDB with Gemini embeddings.  The store is again a list
of `ChromaRec`; `genai.embed_content` outcomes and `collection.query`
hit lists are passed in as parameters.  The numeric value of a stored
embedding is never read by this code, so the embedding oracle carries
only success or failure.
-/

namespace GeminiV2

/-- The `MemoryItem` dataclass (lines 52–71).  `Option` fields are the
ones Python may leave as `None`; `metadata` holds JSON-ish values (the
search path stores a numeric `similarity_score` in it). -/
structure MemoryItem where
  id : String
  content : String
  metadata : PyDict
  userId : Option String
  agentId : Option String
  workflowId : Option String
  sessionId : Option String
  memoryType : Option String
  createdAt : Option String
  updatedAt : Option String
  expiresAt : Option String
  deriving DecidableEq, Repr

/-- Hook `MemoryItem.__post_init__`: a falsy (`None` or empty) `createdAt`
becomes `now`, a falsy `updatedAt` becomes the final `createdAt`. -/
def mkMemoryItem (id content : String) (metadata : PyDict)
    (userId agentId workflowId sessionId memoryType : Option String)
    (createdAt updatedAt expiresAt : Option String) (now : String) :
    MemoryItem :=
  let c := match createdAt with
    | none => now
    | some s => if s = "" then now else s
  let uAt := match updatedAt with
    | none => c
    | some s => if s = "" then c else s
  { id := id, content := content, metadata := metadata, userId := userId,
    agentId := agentId, workflowId := workflowId, sessionId := sessionId,
    memoryType := memoryType, createdAt := some c, updatedAt := some uAt,
    expiresAt := expiresAt }

/-- Method `GeminiMemorySystem.add_memory` (lines 125–172).  `embed` is the
outcome of `generate_embedding` (which re-raises provider errors); on
failure `add_memory` re-raises (`.error`).  On success it stores the
merged metadata `{"userId": u, "content": c, "createdAt": now, **metadata}`
and returns the new store plus the `MemoryItem` it builds. -/
def add_memory (st : List ChromaRec) (embed : Except String Unit)
    (content user_id : String) (metadata : StrDict) (freshId now : String) :
    Except String (List ChromaRec × MemoryItem) :=
  match embed with
  | .error e => .error e
  | .ok _ =>
    let chromaMeta := mergeDict
      [("userId", user_id), ("content", content), ("createdAt", now)] metadata
    let item := mkMemoryItem freshId content
      (metadata.map (fun e => (e.1, FieldVal.str e.2)))
      (some user_id)
      (pyOrElse (dictFind metadata "agentId") (dictFind metadata "agent_id"))
      (pyOrElse (dictFind metadata "workflowId") (dictFind metadata "workflow_id"))
      (pyOrElse (dictFind metadata "sessionId") (dictFind metadata "session_id"))
      (pyOrElse (dictFind metadata "memoryType")
        (some (dictGet metadata "memory_type" "long_term")))
      none none none now
    .ok (st ++ [{ id := freshId, document := content, metadata := chromaMeta }],
         item)

/-- The metadata cleanup done by both retrieval paths:
`{k: v for k, v in metadata.items() if k not in ['userId','content','createdAt']}`. -/
def cleanMeta (d : StrDict) : PyDict :=
  (d.filter (fun e =>
    !(e.1 == "userId" || e.1 == "content" || e.1 == "createdAt"))).map
    (fun e => (e.1, FieldVal.str e.2))

/-- Method `GeminiMemorySystem.search_memories` (lines 174–215).  `outcome` is
the combined result of the embedding call plus `collection.query`
(records and distances); any exception is caught and an empty list
returned.  Each hit becomes a `MemoryItem` whose metadata gains a
`similarity_score` of `1 - distance`, whose `userId` falls back to the
requesting user, and whose `createdAt` comes from the stored metadata
(absent ⇒ `__post_init__` fills in `now`). -/
def search_memories (outcome : Except String (List (ChromaRec × ℚ)))
    (user_id now : String) : List MemoryItem :=
  match outcome with
  | .error _ => []
  | .ok hits =>
    hits.map (fun p =>
      mkMemoryItem p.1.id p.1.document
        (cleanMeta p.1.metadata ++ [("similarity_score", FieldVal.num (1 - p.2))])
        (some (dictGet p.1.metadata "userId" user_id))
        none none none none
        (dictFind p.1.metadata "createdAt") none none now)

/-- Method `GeminiMemorySystem.get_all_memories` (lines 217–251):
`collection.get(where={"userId": u})` — or the whole collection when
`user_id == "all"` — mapped to `MemoryItem`s. -/
def get_all_memories (st : List ChromaRec) (user_id now : String) :
    List MemoryItem :=
  let recs := if user_id = "all" then st else chromaGetUser st user_id
  recs.map (fun r =>
    mkMemoryItem r.id r.document (cleanMeta r.metadata)
      (some (dictGet r.metadata "userId" user_id))
      none none none none
      (dictFind r.metadata "createdAt") none none now)

/-- Method `GeminiMemorySystem.delete_memory` (lines 253–262): forward
`collection.delete(ids=[memory_id])` (which silently removes whatever
matches) and report `True`; no lookup, no ownership test. -/
def delete_memory (st : List ChromaRec) (memory_id : String) :
    List ChromaRec × Bool :=
  (st.filter (fun r => !(r.id == memory_id)), true)

/-- The parsed JSON body of a POST (absent keys are `none`;
`body.get('metadata', {})` makes `[]` the shape of an absent dict). -/
structure GBody where
  content : Option String
  messages : Option (Option (List PyMsg))
  user_id : Option String
  userId : Option String
  metadata : StrDict
  query : Option String
  deriving Repr

/-- Line `f"{role}: {content}"` for a message that has a `content` key
(`role` defaults to `"user"`); `none` when the key is missing and the
message is skipped. -/
def msgLine (m : PyMsg) : Option String :=
  m.content.map (fun c => (m.role.getD "user") ++ ": " ++ c)

/-- Python `"\n".join(lines)`. -/
def joinLines : List String → String
  | [] => ""
  | [x] => x
  | x :: y :: ys => x ++ "\n" ++ joinLines (y :: ys)

/-- Method `MemoryRequestHandler._extract_content_from_request` (lines 309–336).
`messages = some (some msgs)` is a JSON list; `some none` stands for a
non-list `messages` value, turned into its `str(...)` rendering, which we
do not track further (the claims do not touch it) and model as the
marker string `"<str(messages)>"`. -/
def extract_content (b : GBody) : Option (String × String × StrDict) :=
  match b.content with
  | some c => some (c, (b.user_id.getD (b.userId.getD "default")), b.metadata)
  | none =>
    match b.messages with
    | some (some msgs) =>
      let content := if msgs.isEmpty then "[]"
        else joinLines (msgs.filterMap msgLine)
      some (content, (b.user_id.getD (b.userId.getD "default")), b.metadata)
    | some none =>
      some ("<str(messages)>", (b.user_id.getD (b.userId.getD "default")),
        b.metadata)
    | none => none

/-- The bodies a handler can send back. -/
inductive GResp where
  | arr (items : List MemoryItem)
  | createOk (data : MemoryItem)
  | searchOk (data : List MemoryItem)
  | health (total_memories : Nat)
  | err (msg : String)
  deriving DecidableEq, Repr

/-- Method `MemoryRequestHandler.do_GET` (lines 342–384).  `searchOutcome` is
the oracle for the search path.  Responses are (status, body); the
handler mutates no store on GET. -/
def do_GET (st : List ChromaRec)
    (searchOutcome : Except String (List (ChromaRec × ℚ)))
    (path : String) (userIdP user_idP queryP : Option String)
    (now : String) : Nat × GResp :=
  if path = "/health" then (200, .health st.length)
  else if path ∈ (["/memories", "/v1/memories", "/v1/memories/"] : List String)
  then
    let u := userIdP.getD (user_idP.getD "default")
    let q := queryP.getD ""
    if q = "" then (200, .arr (get_all_memories st u now))
    else (200, .arr (search_memories searchOutcome u now))
  else (404, .err "Endpoint not found")

/-- Method `MemoryRequestHandler.do_POST` (lines 386–446).  `embed` feeds the
create path, `searchOutcome` the `/memories/search` path; the returned
store is the collection after the request. -/
def do_POST (st : List ChromaRec) (embed : Except String Unit)
    (searchOutcome : Except String (List (ChromaRec × ℚ)))
    (path : String) (b : GBody) (freshId now : String) :
    (Nat × GResp) × List ChromaRec :=
  if path ∈ (["/memories", "/v1/memories", "/v1/memories/"] : List String)
  then
    match extract_content b with
    | none => ((400, .err "Content is required"), st)
    | some (content, user_id, metadata) =>
      if content = "" then ((400, .err "Content is required"), st)
      else
        match add_memory st embed content user_id metadata freshId now with
        | .error e => ((500, .err e), st)
        | .ok (st2, item) => ((200, .createOk item), st2)
  else if path ∈ (["/memories/search", "/v1/memories/search"] : List String)
  then
    let q := (b.query).getD ""
    let u := b.userId.getD (b.user_id.getD "default")
    if q = "" then ((400, .err "Query is required"), st)
    else ((200, .searchOk (search_memories searchOutcome u now)), st)
  else ((404, .err "Endpoint not found"), st)

end GeminiV2

/-!
## Mem0 memory server v2
`src/servers/mem0_memory_server_v2.py`: a Flask wrapper around a mem0
client (the library, or the fallback store above).  Client calls are
modelled by their outcomes: `.error e` means the call raised with
`str(e) = e`.
-/

namespace Mem0V2

/-- What `OneAgentMem0Server.create_memory` (lines 132–165) returns: the
success dict or, when the client call raised, the failure dict — the
exception never escapes this method.  `Option` fields are the keys
present in only one of the two shapes. -/
structure CreateResult where
  success : Bool
  error : Option String
  memory_id : Option String
  content : String
  user_id : String
  metadata : Option StrDict
  timestamp : Option String
  result : Option PyDict
  deriving DecidableEq, Repr

/-- Method `OneAgentMem0Server.create_memory`: wrap the client `add` call
(outcome `addOutcome`) and build the corresponding dict;
`result.get("id", str(uuid.uuid4()))` supplies the memory id. -/
def create_memory (addOutcome : Except String PyDict)
    (content user_id : String) (metadata : StrDict) (freshId now : String) :
    CreateResult :=
  match addOutcome with
  | .ok res =>
    { success := true, error := none,
      memory_id := some (pyGetStr res "id" freshId),
      content := content, user_id := user_id, metadata := some metadata,
      timestamp := some now, result := some res }
  | .error e =>
    { success := false, error := some e, memory_id := none,
      content := content, user_id := user_id, metadata := none,
      timestamp := none, result := none }

/-- The JSON body of `POST /memory/create` (absent keys are `none`). -/
structure CreateBody where
  content : Option String
  user_id : Option String
  metadata : StrDict
  deriving DecidableEq, Repr

/-- A response body of the `/memory/create` route: the wrapper's dict, or
the route-level `{"success": False, "error": str(e)}`. -/
inductive RouteResp where
  | result (r : CreateResult)
  | fail (error : String)
  deriving DecidableEq, Repr

/-- The Flask route `create_memory` (lines 283–299).  `body` is the
outcome of `request.get_json()` plus field extraction; only an exception
escaping to the route (e.g. an unreadable body) hits the `except` arm,
which answers 500 with `str(e)`.  A *successful* route call returns
`jsonify(result)` with Flask's default status **200**, whatever
`result["success"]` says. -/
def route_create_memory (body : Except String CreateBody)
    (addOutcome : Except String PyDict) (freshId now : String) :
    Nat × RouteResp :=
  match body with
  | .error e => (500, .fail e)
  | .ok b =>
    (200, .result (create_memory addOutcome (b.content.getD "")
      (b.user_id.getD "oneagent_system") b.metadata freshId now))

/-- One formatted record of `OneAgentMem0Server.search_memories`
(lines 178–187): built from a raw client-result dict `r` with `.get`
defaults (`freshId` models `str(uuid.uuid4())`, `now` the
`datetime.now().isoformat()` default). -/
def fmtSearchRec (r : PyDict) (user_id freshId now : String) : PyDict :=
  [("id", pyGet r "id" (.str freshId)),
   ("content", pyGet r "memory" (pyGet r "text" (.str ""))),
   ("score", pyGet r "score" (.num 0)),
   ("metadata", pyGet r "metadata" (.dict [])),
   ("user_id", .str user_id),
   ("created_at", pyGet r "created_at" (.str now))]

/-- What `OneAgentMem0Server.search_memories` (lines 167–206) returns. -/
structure SearchResp where
  success : Bool
  error : Option String
  query : String
  user_id : String
  memories : List PyDict
  deriving DecidableEq, Repr

/-- Method `OneAgentMem0Server.search_memories`: format every client hit (each
gets its own fallback uuid, hence `freshIds : Nat → String` indexed by
position); a raised client call yields the failure dict with empty
`memories`. -/
def search_memories (searchOutcome : Except String (List PyDict))
    (query user_id : String) (freshIds : Nat → String) (now : String) :
    SearchResp :=
  match searchOutcome with
  | .error e =>
    { success := false, error := some e, query := query, user_id := user_id,
      memories := [] }
  | .ok results =>
    { success := true, error := none, query := query, user_id := user_id,
      memories := results.enum.map
        (fun p => fmtSearchRec p.2 user_id (freshIds p.1) now) }

/-- One formatted record of `OneAgentMem0Server.get_user_memories`
(lines 216–224). -/
def fmtAllRec (r : PyDict) (user_id freshId now : String) : PyDict :=
  [("id", pyGet r "id" (.str freshId)),
   ("content", pyGet r "memory" (pyGet r "text" (.str ""))),
   ("metadata", pyGet r "metadata" (.dict [])),
   ("user_id", .str user_id),
   ("created_at", pyGet r "created_at" (.str now)),
   ("updated_at", pyGet r "updated_at" (.str now))]

/-- What `OneAgentMem0Server.get_user_memories` (lines 208–240) returns. -/
structure AllResp where
  success : Bool
  error : Option String
  user_id : String
  memories : List PyDict
  deriving DecidableEq, Repr

/-- Method `OneAgentMem0Server.get_user_memories`: format every record of the
client's `get_all`. -/
def get_user_memories (getAllOutcome : Except String (List PyDict))
    (user_id : String) (freshIds : Nat → String) (now : String) : AllResp :=
  match getAllOutcome with
  | .error e =>
    { success := false, error := some e, user_id := user_id, memories := [] }
  | .ok results =>
    { success := true, error := none, user_id := user_id,
      memories := results.enum.map
        (fun p => fmtAllRec p.2 user_id (freshIds p.1) now) }

end Mem0V2

/-- Distinct printable ids for building concrete stores (`n` repetitions
of `a`, so different indices give different ids). -/
def natToId (n : Nat) : String :=
  String.mk (List.replicate n 'a')

/-- A reachable fallback store: fifty successive `Memory.add` calls for
user `"u"` (each with its own fresh id), as Python's default
`get_all` limit is 50. -/
def c3store : List FallbackMemory.FbRec :=
  (List.range 50).foldl
    (fun st i =>
      (FallbackMemory.add st [⟨some "old content", some "user"⟩] "u" []
        (natToId i) "t").1)
    []

/-!
## Claim theorems
-/

theorem dictGet_of_hasKV {d : StrDict} {k v : String} (h : hasKV d k v = true)
    (dflt : String) : dictGet d k dflt = v := by
  unfold hasKV at h
  unfold dictGet
  cases hf : dictFind d k with
  | none => rw [hf] at h; simp at h
  | some w => rw [hf] at h; simp at h; simp [h]

namespace FallbackMemory

theorem pyDel_eq_filter (memory_id : String) :
    ∀ st : List FbRec, st.Pairwise (fun a b => a.id ≠ b.id) →
      pyDel memory_id st = st.filter (fun r => r.id ≠ memory_id) := by
  intro st
  induction st with
  | nil => intro _; rfl
  | cons r rest ih =>
    intro hp
    rw [List.pairwise_cons] at hp
    by_cases h : r.id = memory_id
    · have hrest : List.filter (fun x => !decide (x.id = memory_id)) rest = rest := by
        apply List.filter_eq_self.mpr
        intro b hb
        have hne : b.id ≠ memory_id := fun hc => (hp.1 b hb) (h.trans hc.symm)
        simp [hne]
      simp [pyDel, h, hrest]
    · simp [pyDel, h, ih hp.2]

theorem pyDel_length (memory_id : String) :
    ∀ st : List FbRec, st.any (fun r => r.id == memory_id) = true →
      (pyDel memory_id st).length + 1 = st.length := by
  intro st
  induction st with
  | nil => intro h; simp at h
  | cons r rest ih =>
    intro h
    by_cases hid : r.id = memory_id
    · simp [pyDel, hid]
    · have : rest.any (fun r => r.id == memory_id) = true := by
        simp only [List.any_cons, Bool.or_eq_true, beq_iff_eq] at h
        rcases h with h | h
        · exact absurd h hid
        · simpa using h
      simp [pyDel, hid, ih this]

end FallbackMemory

/-- C8: for every provider outcome, `generate_embedding` in
`oneagent_memory_server` returns a list of exactly 768 numbers and never
propagates an exception; an over-long embedding is truncated to its
first 768 components, and a provider error — or an embedding shorter
than 768 components — yields the all-zero 768-vector. -/
theorem C8_generate_embedding_total
    (provider : Except String (List ℚ)) :
    (OneAgentServer.generate_embedding provider).length = 768 ∧
    (∀ l, provider = .ok l → 768 < l.length →
      OneAgentServer.generate_embedding provider = l.take 768) ∧
    (∀ e, provider = .error e →
      OneAgentServer.generate_embedding provider = List.replicate 768 0) ∧
    (∀ l, provider = .ok l → l.length < 768 →
      OneAgentServer.generate_embedding provider = List.replicate 768 0) := by
  refine ⟨?_, ?_, ?_, ?_⟩
  · cases provider with
    | error e => simp [OneAgentServer.generate_embedding,
        OneAgentServer.embedding_dimensions]
    | ok l =>
      by_cases h1 : 768 < l.length
      · simp [OneAgentServer.generate_embedding,
          OneAgentServer.embedding_dimensions, h1]
        omega
      · by_cases h2 : l.length < 768
        · simp [OneAgentServer.generate_embedding,
            OneAgentServer.embedding_dimensions, h1, h2]
        · simp [OneAgentServer.generate_embedding,
            OneAgentServer.embedding_dimensions, h1, h2]
          omega
  · intro l hl h1
    subst hl
    simp [OneAgentServer.generate_embedding,
      OneAgentServer.embedding_dimensions, h1]
  · intro e he
    subst he
    rfl
  · intro l hl h2
    subst hl
    have h1 : ¬ 768 < l.length := by omega
    simp [OneAgentServer.generate_embedding,
      OneAgentServer.embedding_dimensions, h1, h2]

/-- C8 witness: a 770-component embedding is truncated to 768, and a
provider error yields the zero vector. -/
theorem C8_generate_embedding_total_witness :
    (OneAgentServer.generate_embedding (.ok (List.replicate 770 (0 : ℚ)))).length
        = 768 ∧
    OneAgentServer.generate_embedding (.ok (List.replicate 770 (0 : ℚ)))
        = (List.replicate 770 (0 : ℚ)).take 768 ∧
    OneAgentServer.generate_embedding (.error "provider down")
        = List.replicate 768 0 :=
  ⟨(C8_generate_embedding_total (.ok (List.replicate 770 (0 : ℚ)))).1,
   (C8_generate_embedding_total (.ok (List.replicate 770 (0 : ℚ)))).2.1
     (List.replicate 770 (0 : ℚ)) rfl (by simp),
   (C8_generate_embedding_total (.error "provider down")).2.2.1
     "provider down" rfl⟩

/-- C10: on a store with unique ids (the Python-dict invariant), the
fallback `Memory.delete` returns `True` and removes precisely the record
with the given id when it is present, and returns `False` with the store
unchanged when it is absent; no other record is affected. -/
theorem C10_fallback_delete_exact (st : List FallbackMemory.FbRec)
    (memory_id : String) (hnd : st.Pairwise (fun a b => a.id ≠ b.id)) :
    (st.any (fun r => r.id == memory_id) = true →
      (FallbackMemory.delete st memory_id).2 = true ∧
      (FallbackMemory.delete st memory_id).1
        = st.filter (fun r => r.id ≠ memory_id) ∧
      (FallbackMemory.delete st memory_id).1.length + 1 = st.length) ∧
    (st.any (fun r => r.id == memory_id) = false →
      FallbackMemory.delete st memory_id = (st, false)) := by
  constructor
  · intro h
    refine ⟨by simp [FallbackMemory.delete, h], ?_, ?_⟩
    · simp only [FallbackMemory.delete, h, if_true]
      exact FallbackMemory.pyDel_eq_filter memory_id st hnd
    · simp only [FallbackMemory.delete, h, if_true]
      exact FallbackMemory.pyDel_length memory_id st h
  · intro h
    simp [FallbackMemory.delete, h]

/-- C10 witness: deleting `"a"` from a two-record store removes exactly
that record; deleting a missing id leaves the store untouched. -/
theorem C10_fallback_delete_exact_witness :
    ((FallbackMemory.delete
        [⟨"a", "x", "u", [], "t"⟩, ⟨"b", "y", "u", [], "t"⟩] "a").2 = true ∧
      (FallbackMemory.delete
        [⟨"a", "x", "u", [], "t"⟩, ⟨"b", "y", "u", [], "t"⟩] "a").1
        = List.filter (fun r => r.id ≠ "a")
            [⟨"a", "x", "u", [], "t"⟩, ⟨"b", "y", "u", [], "t"⟩] ∧
      (FallbackMemory.delete
        [⟨"a", "x", "u", [], "t"⟩, ⟨"b", "y", "u", [], "t"⟩] "a").1.length + 1
        = 2) ∧
    FallbackMemory.delete
        [⟨"a", "x", "u", [], "t"⟩, ⟨"b", "y", "u", [], "t"⟩] "zz"
      = ([⟨"a", "x", "u", [], "t"⟩, ⟨"b", "y", "u", [], "t"⟩], false) :=
  ⟨(C10_fallback_delete_exact
      [⟨"a", "x", "u", [], "t"⟩, ⟨"b", "y", "u", [], "t"⟩] "a"
      (by decide)).1 (by decide),
   (C10_fallback_delete_exact
      [⟨"a", "x", "u", [], "t"⟩, ⟨"b", "y", "u", [], "t"⟩] "zz"
      (by decide)).2 (by decide)⟩

/-- C4: every request passing through the MCP-header dependency guarding
the `/v1/memories` endpoints is rejected with 401 — before the memory
operation `op` runs and with the store untouched — when the
Authorization header is absent, does not start with `"Bearer "`, or
carries a token different from the configured key; with valid
authorization, a protocol-version header different from `"2025-06-18"`
is rejected with 426; with both valid the operation runs. -/
theorem C4_mcp_header_gate (α : Type)
    (op : List ChromaRec → (Nat × α) × List ChromaRec) (errBody : Nat → α)
    (ver : Option String) (key : String) (st : List ChromaRec) :
    (OneAgentServer.endpointWithHeaders op errBody none ver key st
      = ((401, errBody 401), st)) ∧
    (∀ a, OneAgentServer.bearerStarts a = false →
      OneAgentServer.endpointWithHeaders op errBody (some a) ver key st
        = ((401, errBody 401), st)) ∧
    (∀ a, OneAgentServer.bearerStarts a = true →
      OneAgentServer.bearerToken a ≠ key →
      OneAgentServer.endpointWithHeaders op errBody (some a) ver key st
        = ((401, errBody 401), st)) ∧
    (∀ a, OneAgentServer.bearerStarts a = true →
      OneAgentServer.bearerToken a = key →
      ver ≠ some OneAgentServer.MCP_PROTOCOL_VERSION →
      OneAgentServer.endpointWithHeaders op errBody (some a) ver key st
        = ((426, errBody 426), st)) ∧
    (∀ a, OneAgentServer.bearerStarts a = true →
      OneAgentServer.bearerToken a = key →
      ver = some OneAgentServer.MCP_PROTOCOL_VERSION →
      OneAgentServer.endpointWithHeaders op errBody (some a) ver key st
        = op st) := by
  have hne : ∀ a : String, OneAgentServer.bearerStarts a = true →
      (a == "") = false := by
    intro a hs
    by_cases he : a = ""
    · subst he
      exact absurd hs (by decide)
    · simp [he]
  refine ⟨?_, ?_, ?_, ?_, ?_⟩
  · rfl
  · intro a hs
    simp [OneAgentServer.endpointWithHeaders, OneAgentServer.require_mcp_headers,
      OneAgentServer.authHeaderOk, hs]
  · intro a hs hk
    simp [OneAgentServer.endpointWithHeaders, OneAgentServer.require_mcp_headers,
      OneAgentServer.authHeaderOk, hs, hne a hs, hk]
  · intro a hs hk hv
    simp [OneAgentServer.endpointWithHeaders, OneAgentServer.require_mcp_headers,
      OneAgentServer.authHeaderOk, hs, hne a hs, hk, hv]
  · intro a hs hk hv
    simp [OneAgentServer.endpointWithHeaders, OneAgentServer.require_mcp_headers,
      OneAgentServer.authHeaderOk, hs, hne a hs, hk, hv]


/-- C4 witness: concrete rejected and accepted requests through the
header gate, instantiated with a trivial memory operation. -/
theorem C4_mcp_header_gate_witness :
    (OneAgentServer.endpointWithHeaders (fun st => ((200, 7), st)) (fun s => s)
        none (some "2025-06-18") "sekret" [] = ((401, 401), []) ∧
      OneAgentServer.endpointWithHeaders (fun st => ((200, 7), st)) (fun s => s)
        (some "Token sekret") (some "2025-06-18") "sekret" []
        = ((401, 401), []) ∧
      OneAgentServer.endpointWithHeaders (fun st => ((200, 7), st)) (fun s => s)
        (some "Bearer wrong") (some "2025-06-18") "sekret" []
        = ((401, 401), []) ∧
      OneAgentServer.endpointWithHeaders (fun st => ((200, 7), st)) (fun s => s)
        (some "Bearer sekret") (some "2024-01-01") "sekret" []
        = ((426, 426), [])) ∧
    OneAgentServer.endpointWithHeaders (fun st => ((200, 7), st)) (fun s => s)
        (some "Bearer sekret") (some "2025-06-18") "sekret" []
      = ((200, 7), []) :=
  ⟨⟨(C4_mcp_header_gate Nat (fun st => ((200, 7), st)) (fun s => s)
      (some "2025-06-18") "sekret" []).1,
    (C4_mcp_header_gate Nat (fun st => ((200, 7), st)) (fun s => s)
      (some "2025-06-18") "sekret" []).2.1 "Token sekret" (by decide),
    (C4_mcp_header_gate Nat (fun st => ((200, 7), st)) (fun s => s)
      (some "2025-06-18") "sekret" []).2.2.1 "Bearer wrong" (by decide)
      (by decide),
    (C4_mcp_header_gate Nat (fun st => ((200, 7), st)) (fun s => s)
      (some "2024-01-01") "sekret" []).2.2.2.1 "Bearer sekret" (by decide)
      (by decide) (by decide)⟩,
   (C4_mcp_header_gate Nat (fun st => ((200, 7), st)) (fun s => s)
      (some "2025-06-18") "sekret" []).2.2.2.2 "Bearer sekret" (by decide)
      (by decide) rfl⟩

/-- C6: in the Gemini v2 server, `/memories`, `/v1/memories` and
`/v1/memories/` are interchangeable: a GET or POST sent to any of the
three with the same parameters, body and oracles produces the same
response (and leaves the same store). -/
theorem C6_paths_interchangeable (p₁ p₂ : String)
    (h₁ : p₁ ∈ (["/memories", "/v1/memories", "/v1/memories/"] : List String))
    (h₂ : p₂ ∈ (["/memories", "/v1/memories", "/v1/memories/"] : List String))
    (st : List ChromaRec) (embed : Except String Unit)
    (so : Except String (List (ChromaRec × ℚ))) (b : GeminiV2.GBody)
    (userIdP user_idP queryP : Option String) (freshId now : String) :
    GeminiV2.do_GET st so p₁ userIdP user_idP queryP now
      = GeminiV2.do_GET st so p₂ userIdP user_idP queryP now ∧
    GeminiV2.do_POST st embed so p₁ b freshId now
      = GeminiV2.do_POST st embed so p₂ b freshId now := by
  simp only [List.mem_cons, List.mem_singleton, List.not_mem_nil,
    or_false] at h₁ h₂
  rcases h₁ with rfl | rfl | rfl <;> rcases h₂ with rfl | rfl | rfl <;>
    exact ⟨rfl, rfl⟩

/-- C6 witness: a concrete GET and POST answered identically on
`/memories` and `/v1/memories/`. -/
theorem C6_paths_interchangeable_witness :
    GeminiV2.do_GET [] (.ok []) "/memories" none none none "t"
      = GeminiV2.do_GET [] (.ok []) "/v1/memories/" none none none "t" ∧
    GeminiV2.do_POST [] (.ok ()) (.ok []) "/memories"
        ⟨some "hello", none, none, none, [], none⟩ "f1" "t"
      = GeminiV2.do_POST [] (.ok ()) (.ok []) "/v1/memories/"
        ⟨some "hello", none, none, none, [], none⟩ "f1" "t" :=
  C6_paths_interchangeable "/memories" "/v1/memories/" (by decide) (by decide)
    [] (.ok ()) (.ok []) ⟨some "hello", none, none, none, [], none⟩
    none none none "f1" "t"

/-- C9: in `oneagent_memory_server.search_memories`, when a (non-empty)
query is provided and the semantic search yields no hits, the fallback
returns exactly the requesting user's memories whose stored content
equals the query character for character, each with `relevanceScore`
`1.0`: every returned record matches, and every matching stored record
is returned. -/
theorem C9_search_exact_match_fallback (st : List ChromaRec)
    (hits : List (ChromaRec × ℚ)) (q u : String) (limit : Nat)
    (hq : q ≠ "") (hh : hits = []) :
    ∃ l, OneAgentServer.search_memories st hits (some q) u limit = .ok l ∧
      (∀ m ∈ l, m.relevanceScore = some 1 ∧ m.content = q ∧ m.userId = u) ∧
      (∀ r ∈ st, hasKV r.metadata "userId" u = true → r.document = q →
        ∃ m ∈ l, m.id = r.id ∧ m.content = r.document) := by
  subst hh
  have hrun : OneAgentServer.search_memories st [] (some q) u limit =
      .ok (((chromaGetUser st u).filter (fun r => r.document == q)).map
        (fun r => OneAgentServer.toMemoryResponse r u (some 1))) := by
    simp [OneAgentServer.search_memories, hq]
  refine ⟨_, hrun, ?_, ?_⟩
  · intro m hm
    rcases List.mem_map.mp hm with ⟨r, hr, rfl⟩
    rcases List.mem_filter.mp hr with ⟨hr1, hr2⟩
    have hkv : hasKV r.metadata "userId" u = true :=
      (List.mem_filter.mp hr1).2
    refine ⟨rfl, ?_, ?_⟩
    · simpa [OneAgentServer.toMemoryResponse] using hr2
    · simpa [OneAgentServer.toMemoryResponse] using dictGet_of_hasKV hkv u
  · intro r hr hkv hdoc
    refine ⟨OneAgentServer.toMemoryResponse r u (some 1), ?_, rfl, rfl⟩
    refine List.mem_map.mpr ⟨r, ?_, rfl⟩
    refine List.mem_filter.mpr ⟨?_, by simp [hdoc]⟩
    exact List.mem_filter.mpr ⟨hr, hkv⟩

/-- C9 witness: on a one-record store whose document equals the query,
the fallback answers with exactly that record at relevance 1. -/
theorem C9_search_exact_match_fallback_witness :
    ∃ l, OneAgentServer.search_memories
        [⟨"m1", "hi", [("userId", "u1"), ("createdAt", "t"), ("updatedAt", "t")]⟩]
        [] (some "hi") "u1" 10 = .ok l ∧
      (∀ m ∈ l, m.relevanceScore = some 1 ∧ m.content = "hi" ∧
        m.userId = "u1") ∧
      (∀ r ∈ ([⟨"m1", "hi",
          [("userId", "u1"), ("createdAt", "t"), ("updatedAt", "t")]⟩] :
            List ChromaRec),
        hasKV r.metadata "userId" "u1" = true → r.document = "hi" →
        ∃ m ∈ l, m.id = r.id ∧ m.content = r.document) :=
  C9_search_exact_match_fallback
    [⟨"m1", "hi", [("userId", "u1"), ("createdAt", "t"), ("updatedAt", "t")]⟩]
    [] "hi" "u1" 10 (by decide) rfl

/-- C2 counterexample: the claim says no wrapper delete ever itself
rejects a delete because the record belongs to a different user.  But in
`oneagent_memory_server`, with a store holding record `"m1"` owned by
`"alice"`, deleting `"m1"` as `"bob"` errors out in the wrapper itself
and leaves the record in place — the deletion is never forwarded. -/
theorem C2_counterexample :
    (OneAgentServer.delete_memory
        [⟨"m1", "doc", [("userId", "alice")]⟩] "m1" "bob").1 = .error 500 ∧
    (OneAgentServer.delete_memory
        [⟨"m1", "doc", [("userId", "alice")]⟩] "m1" "bob").2
      = [⟨"m1", "doc", [("userId", "alice")]⟩] ∧
    (∃ r ∈ ([⟨"m1", "doc", [("userId", "alice")]⟩] : List ChromaRec),
      r.id = "m1" ∧ hasKV r.metadata "userId" "alice" = true) ∧
    "alice" ≠ "bob" :=
  ⟨rfl, rfl, ⟨⟨"m1", "doc", [("userId", "alice")]⟩, by decide⟩, by decide⟩

/-- C2 (amended): the Gemini v2 wrapper's delete does forward the
deletion with no ownership check of its own — it removes exactly the
records with the given id, keeps all others, and reports `True` whatever
user owns them — but `oneagent_memory_server`'s `delete_memory` adds its
own per-user ownership probe: when no stored record has both the given
id and the requesting user's `userId`, it rejects the request with an
error and forwards nothing; only when the probe succeeds does it forward
the deletion. -/
theorem C2_delete_ownership_amended (st : List ChromaRec)
    (memory_id user_id : String) :
    ((GeminiV2.delete_memory st memory_id).2 = true ∧
      (∀ r ∈ st, r.id ≠ memory_id →
        r ∈ (GeminiV2.delete_memory st memory_id).1) ∧
      (∀ r ∈ (GeminiV2.delete_memory st memory_id).1,
        r.id ≠ memory_id ∧ r ∈ st)) ∧
    ((∀ r ∈ st, r.id = memory_id →
        hasKV r.metadata "userId" user_id = false) →
      OneAgentServer.delete_memory st memory_id user_id = (.error 500, st)) ∧
    ((∃ r ∈ st, r.id = memory_id ∧
        hasKV r.metadata "userId" user_id = true) →
      (OneAgentServer.delete_memory st memory_id user_id).1 = .ok true ∧
      (∀ r ∈ (OneAgentServer.delete_memory st memory_id user_id).2,
        r.id ≠ memory_id ∧ r ∈ st) ∧
      (∀ r ∈ st, r.id ≠ memory_id →
        r ∈ (OneAgentServer.delete_memory st memory_id user_id).2)) := by
  refine ⟨⟨rfl, ?_, ?_⟩, ?_, ?_⟩
  · intro r hr hne
    refine List.mem_filter.mpr ⟨hr, ?_⟩
    simp [hne]
  · intro r hr
    rcases List.mem_filter.mp hr with ⟨hmem, hcond⟩
    refine ⟨?_, hmem⟩
    simpa using hcond
  · intro hnone
    have hempty : (st.filter (fun r => r.id == memory_id
        && hasKV r.metadata "userId" user_id)).isEmpty = true := by
      rw [List.isEmpty_iff]
      rw [List.filter_eq_nil_iff]
      intro r hr
      intro hcontra
      have hsplit : r.id = memory_id ∧
          hasKV r.metadata "userId" user_id = true := by
        simpa using hcontra
      have := hnone r hr hsplit.1
      rw [this] at hsplit
      exact Bool.false_ne_true hsplit.2
    simp [OneAgentServer.delete_memory, hempty]
  · intro hsome
    rcases hsome with ⟨r, hr, hid, hkv⟩
    have hne : (st.filter (fun r => r.id == memory_id
        && hasKV r.metadata "userId" user_id)).isEmpty = false := by
      by_contra hcontra
      have htrue : (st.filter (fun r => r.id == memory_id
          && hasKV r.metadata "userId" user_id)).isEmpty = true := by
        cases h : (st.filter (fun r => r.id == memory_id
            && hasKV r.metadata "userId" user_id)).isEmpty
        · exact absurd h hcontra
        · rfl
      rw [List.isEmpty_iff] at htrue
      have hmem : r ∈ st.filter (fun r => r.id == memory_id
          && hasKV r.metadata "userId" user_id) :=
        List.mem_filter.mpr ⟨hr, by simp [hid, hkv]⟩
      rw [htrue] at hmem
      exact List.not_mem_nil r hmem
    refine ⟨by simp [OneAgentServer.delete_memory, hne], ?_, ?_⟩
    · intro r2 hr2
      simp only [OneAgentServer.delete_memory, hne, Bool.false_eq_true,
        if_false] at hr2
      rcases List.mem_filter.mp hr2 with ⟨hmem, hcond⟩
      refine ⟨?_, hmem⟩
      simpa using hcond
    · intro r2 hr2 hneq
      simp only [OneAgentServer.delete_memory, hne, Bool.false_eq_true,
        if_false]
      refine List.mem_filter.mpr ⟨hr2, ?_⟩
      simp [hneq]

/-- C2 (amended) witness: the Gemini delete removes an `"alice"` record
for any caller; the OneAgent delete rejects `"bob"` but lets `"alice"`
delete her own record. -/
theorem C2_delete_ownership_amended_witness :
    (GeminiV2.delete_memory [⟨"m1", "doc", [("userId", "alice")]⟩] "m1").2
        = true ∧
    OneAgentServer.delete_memory [⟨"m1", "doc", [("userId", "alice")]⟩]
        "m1" "bob" = (.error 500, [⟨"m1", "doc", [("userId", "alice")]⟩]) ∧
    (OneAgentServer.delete_memory [⟨"m1", "doc", [("userId", "alice")]⟩]
        "m1" "alice").1 = .ok true :=
  ⟨(C2_delete_ownership_amended [⟨"m1", "doc", [("userId", "alice")]⟩]
      "m1" "bob").1.1,
   (C2_delete_ownership_amended [⟨"m1", "doc", [("userId", "alice")]⟩]
      "m1" "bob").2.1 (by decide),
   ((C2_delete_ownership_amended [⟨"m1", "doc", [("userId", "alice")]⟩]
      "m1" "alice").2.2
      ⟨⟨"m1", "doc", [("userId", "alice")]⟩, by decide⟩).1⟩

/-- C7: every memory record returned by the retrieval operations carries
the full record shape.  For the Gemini v2 system, `search_memories` and
`get_all_memories` return `MemoryItem`s — whose `id`, `content` and
`metadata` are total fields — and the optional `userId`, `createdAt` and
`updatedAt` are always populated (the `userId` lookup falls back to the
requesting user; `__post_init__` fills the timestamps).  For the mem0 v2
server, every dict in the `memories` list of `search_memories` and
`get_user_memories` carries the `id`, `content`, `user_id`, `metadata`
and `created_at` keys, whatever shape the raw client results had. -/
theorem C7_retrieved_records_full_shape (st : List ChromaRec)
    (so : Except String (List (ChromaRec × ℚ))) (u now : String)
    (clientSearch clientAll : Except String (List PyDict))
    (q u2 : String) (freshIds : Nat → String) (now2 : String) :
    ((GeminiV2.search_memories so u now).all (fun m =>
      m.userId.isSome && m.createdAt.isSome && m.updatedAt.isSome) = true) ∧
    ((GeminiV2.get_all_memories st u now).all (fun m =>
      m.userId.isSome && m.createdAt.isSome && m.updatedAt.isSome) = true) ∧
    ((Mem0V2.search_memories clientSearch q u2 freshIds now2).memories.all
      (fun d => (pyFind d "id").isSome && (pyFind d "content").isSome
        && (pyFind d "user_id").isSome && (pyFind d "metadata").isSome
        && (pyFind d "created_at").isSome) = true) ∧
    ((Mem0V2.get_user_memories clientAll u2 freshIds now2).memories.all
      (fun d => (pyFind d "id").isSome && (pyFind d "content").isSome
        && (pyFind d "user_id").isSome && (pyFind d "metadata").isSome
        && (pyFind d "created_at").isSome) = true) := by
  refine ⟨?_, ?_, ?_, ?_⟩
  · cases so with
    | error e => rfl
    | ok hits =>
      rw [List.all_eq_true]
      intro m hm
      rcases List.mem_map.mp hm with ⟨p, hp, rfl⟩
      simp [GeminiV2.mkMemoryItem]
  · rw [List.all_eq_true]
    intro m hm
    rcases List.mem_map.mp hm with ⟨r, hr, rfl⟩
    simp [GeminiV2.mkMemoryItem]
  · cases clientSearch with
    | error e => rfl
    | ok results =>
      rw [List.all_eq_true]
      intro d hd
      rcases List.mem_map.mp hd with ⟨p, hp, rfl⟩
      rfl
  · cases clientAll with
    | error e => rfl
    | ok results =>
      rw [List.all_eq_true]
      intro d hd
      rcases List.mem_map.mp hd with ⟨p, hp, rfl⟩
      rfl

theorem msgLine_all_some_filterMap (msgs : List PyMsg)
    (h : ∀ m ∈ msgs, m.content.isSome = true) :
    msgs.filterMap GeminiV2.msgLine
      = msgs.map (fun m => (m.role.getD "user") ++ ": " ++ m.content.getD "") := by
  induction msgs with
  | nil => rfl
  | cons m rest ih =>
    have hm := h m (List.mem_cons_self m rest)
    rcases Option.isSome_iff_exists.mp hm with ⟨c, hc⟩
    simp [List.filterMap_cons, GeminiV2.msgLine, hc,
      ih (fun x hx => h x (List.mem_cons_of_mem m hx))]

theorem joinLines_head_le (x : String) (xs : List String) :
    x.length ≤ (GeminiV2.joinLines (x :: xs)).length := by
  cases xs with
  | nil => simp [GeminiV2.joinLines]
  | cons y ys =>
    simp [GeminiV2.joinLines, String.length_append]
    omega

/-- C5: on the Gemini v2 create endpoint (any of the three accepted
paths), a body with a non-empty `content` string creates a memory with
exactly that content; a body with a non-empty `messages` list of
objects each carrying a `content` key creates a memory whose content is
the messages joined as `role: content` lines separated by newlines
(role defaulting to `user`); and a body with neither field is rejected
with status 400 and the store unchanged.  The embedding call is assumed
to succeed (a failing embedding call raises before anything is stored). -/
theorem C5_create_body_shapes (st : List ChromaRec) (path : String)
    (b : GeminiV2.GBody) (so : Except String (List (ChromaRec × ℚ)))
    (freshId now : String)
    (hpath : path ∈ (["/memories", "/v1/memories", "/v1/memories/"] : List String)) :
    (∀ c, b.content = some c → c ≠ "" →
      ∃ item meta, GeminiV2.do_POST st (.ok ()) so path b freshId now
          = ((200, .createOk item), st ++ [⟨freshId, c, meta⟩]) ∧
        item.content = c) ∧
    (∀ msgs, b.content = none → b.messages = some (some msgs) → msgs ≠ [] →
      (∀ m ∈ msgs, m.content.isSome = true) →
      ∃ item meta, GeminiV2.do_POST st (.ok ()) so path b freshId now
          = ((200, .createOk item),
             st ++ [⟨freshId,
               GeminiV2.joinLines (msgs.map (fun m =>
                 (m.role.getD "user") ++ ": " ++ m.content.getD "")), meta⟩]) ∧
        item.content = GeminiV2.joinLines (msgs.map (fun m =>
          (m.role.getD "user") ++ ": " ++ m.content.getD ""))) ∧
    (b.content = none → b.messages = none →
      GeminiV2.do_POST st (.ok ()) so path b freshId now
        = ((400, .err "Content is required"), st)) := by
  have hmem : (path ∈ (["/memories", "/v1/memories", "/v1/memories/"] :
      List String)) = True := by simp [hpath]
  refine ⟨?_, ?_, ?_⟩
  · intro c hc hcne
    simp only [GeminiV2.do_POST, hmem, if_true, GeminiV2.extract_content, hc,
      GeminiV2.add_memory, hcne, if_false]
    exact ⟨_, _, rfl, rfl⟩
  · intro msgs hc hmsgs hne hall
    obtain ⟨m, rest, rfl⟩ : ∃ m rest, msgs = m :: rest := by
      cases msgs with
      | nil => exact absurd rfl hne
      | cons a bs => exact ⟨a, bs, rfl⟩
    have hjoin := msgLine_all_some_filterMap (m :: rest) hall
    have hlen1 : 2 ≤ ((m.role.getD "user") ++ ": " ++ m.content.getD "").length := by
      have h2 : (": " : String).length = 2 := rfl
      simp [String.length_append, h2]
      omega
    have hlen2 := joinLines_head_le ((m.role.getD "user") ++ ": " ++ m.content.getD "")
      (rest.map (fun x => (x.role.getD "user") ++ ": " ++ x.content.getD ""))
    have hjne : GeminiV2.joinLines (((m :: rest).map (fun x =>
        (x.role.getD "user") ++ ": " ++ x.content.getD ""))) ≠ "" := by
      intro hE
      have hL := congrArg String.length hE
      simp only [List.map_cons] at hL
      rw [hL] at hlen2
      have h0 : ("" : String).length = 0 := rfl
      omega
    simp only [GeminiV2.do_POST, hmem, if_true, GeminiV2.extract_content, hc,
      hmsgs, List.isEmpty_cons, if_false, hjoin, List.map_cons,
      GeminiV2.add_memory, Bool.false_eq_true]
    rw [if_neg (by simpa using hjne)]
    exact ⟨_, _, rfl, rfl⟩
  · intro hc hmsgs
    simp [GeminiV2.do_POST, hmem, GeminiV2.extract_content, hc, hmsgs]

/-- C5 witness: concrete requests of each of the three body shapes. -/
theorem C5_create_body_shapes_witness :
    (∃ item meta, GeminiV2.do_POST [] (.ok ()) (.ok []) "/memories"
        ⟨some "hello", none, none, none, [], none⟩ "f1" "t"
        = ((200, .createOk item), [] ++ [⟨"f1", "hello", meta⟩]) ∧
      item.content = "hello") ∧
    (∃ item meta, GeminiV2.do_POST [] (.ok ()) (.ok []) "/v1/memories/"
        ⟨none, some (some [⟨some "hi", some "assistant"⟩, ⟨some "yo", none⟩]),
          none, none, [], none⟩ "f2" "t"
        = ((200, .createOk item),
           [] ++ [⟨"f2",
             GeminiV2.joinLines ([⟨some "hi", some "assistant"⟩,
               (⟨some "yo", none⟩ : PyMsg)].map (fun m =>
                 (m.role.getD "user") ++ ": " ++ m.content.getD "")), meta⟩]) ∧
      item.content = GeminiV2.joinLines ([⟨some "hi", some "assistant"⟩,
        (⟨some "yo", none⟩ : PyMsg)].map (fun m =>
          (m.role.getD "user") ++ ": " ++ m.content.getD ""))) ∧
    GeminiV2.do_POST [] (.ok ()) (.ok []) "/memories"
        ⟨none, none, none, none, [], none⟩ "f3" "t"
      = ((400, .err "Content is required"), []) :=
  ⟨(C5_create_body_shapes [] "/memories"
      ⟨some "hello", none, none, none, [], none⟩ (.ok []) "f1" "t"
      (by decide)).1 "hello" rfl (by decide),
   (C5_create_body_shapes [] "/v1/memories/"
      ⟨none, some (some [⟨some "hi", some "assistant"⟩, ⟨some "yo", none⟩]),
        none, none, [], none⟩ (.ok []) "f2" "t"
      (by decide)).2.1 [⟨some "hi", some "assistant"⟩, ⟨some "yo", none⟩]
      rfl rfl (by decide) (by decide),
   (C5_create_body_shapes [] "/memories"
      ⟨none, none, none, none, [], none⟩ (.ok []) "f3" "t"
      (by decide)).2.2 rfl rfl⟩

/-- C1 counterexample: the claim says that whenever the underlying
library call raises, the HTTP response has status 500.  But in
`mem0_memory_server_v2`, `/memory/create` with a well-formed body whose
`client.add` call raises answers with Flask's default status **200**
(the wrapper method caught the exception and returned the failure
dict). -/
theorem C1_counterexample :
    (Mem0V2.route_create_memory (.ok ⟨some "hello", some "u1", []⟩)
      (.error "mem0 add failed") "f1" "t").1 = 200 ∧
    (Mem0V2.route_create_memory (.ok ⟨some "hello", some "u1", []⟩)
      (.error "mem0 add failed") "f1" "t").1 ≠ 500 :=
  ⟨rfl, by decide⟩

/-- C1 (amended): in `mem0_memory_server_v2`'s `/memory/create`, a
library-call exception is caught inside the wrapper method, and the
route answers **200** with a body whose `success` is false and whose
`error` is the stringified exception; only an exception escaping to the
route itself (e.g. an unreadable body) produces a 500 whose body carries
`str(e)`. -/
theorem C1_library_error_wrapped_amended (b : Mem0V2.CreateBody)
    (ao : Except String PyDict) (e freshId now : String) :
    ((Mem0V2.route_create_memory (.ok b) (.error e) freshId now).1 = 200 ∧
      ∃ r, Mem0V2.route_create_memory (.ok b) (.error e) freshId now
          = (200, .result r) ∧ r.success = false ∧ r.error = some e) ∧
    Mem0V2.route_create_memory (.error e) ao freshId now = (500, .fail e) :=
  ⟨⟨rfl, ⟨_, rfl, rfl, rfl⟩⟩, rfl⟩

theorem pyDel_append_fresh (freshId : String) (nr : FallbackMemory.FbRec)
    (hnr : nr.id = freshId) :
    ∀ st : List FallbackMemory.FbRec, freshId ∉ st.map (fun r => r.id) →
      FallbackMemory.pyDel freshId (st ++ [nr]) = st := by
  intro st
  induction st with
  | nil => intro _; simp [FallbackMemory.pyDel, hnr]
  | cons r rest ih =>
    intro hnot
    simp only [List.map_cons, List.mem_cons, not_or] at hnot
    have hne : r.id ≠ freshId := fun h => hnot.1 h.symm
    simp [FallbackMemory.pyDel, hne, ih hnot.2]

/-- C3 counterexample: the claim says that after an add, a subsequent
get-all for the same user returns a record with the added content.  But
`Memory.get_all` truncates to its `limit` (default 50): on a store
already holding 50 records for user `"u"` (built by 50 `add` calls),
adding new content and calling `get_all` with the default limit returns
no record with that content — even though the record was stored. -/
theorem C3_counterexample :
    ((FallbackMemory.get_all
        (FallbackMemory.add c3store [⟨some "NEW", some "user"⟩] "u" []
          (natToId 50) "t2").1 "u" 50).any
      (fun d => pyGetStr d "memory" "" == "NEW")) = false ∧
    ((FallbackMemory.add c3store [⟨some "NEW", some "user"⟩] "u" []
        (natToId 50) "t2").1.any
      (fun r => r.content == "NEW" && r.user_id == "u")) = true := by
  constructor
  · decide
  · decide

/-- C3 (amended): the add/retrieve/delete lifecycle of the fallback
`Memory` store holds up to the retrieval limits.  After an `add`,
`get_all` for the same user returns the new record — provided the user
held fewer than `limit` records before; `search` returns it — provided
fewer than `limit` records matched before and the query is a
case-insensitive substring of the content; and after `delete` of the
fresh id, `get_all` no longer returns any record with that id. -/
theorem C3_lifecycle_amended (st : List FallbackMemory.FbRec)
    (messages : List PyMsg) (u : String) (meta : StrDict)
    (freshId now : String) (limit limit2 : Nat) (q : String) :
    ((st.filter (fun r => r.user_id == u)).length < limit →
      ∃ d ∈ FallbackMemory.get_all
          (FallbackMemory.add st messages u meta freshId now).1 u limit,
        pyGetStr d "memory" "" = FallbackMemory.extractFirstContent messages ∧
        pyGetStr d "id" "" = freshId) ∧
    ((st.filter (fun r => FallbackMemory.matchesQuery r q u)).length < limit →
      strSub (pyLower q)
        (pyLower (FallbackMemory.extractFirstContent messages)) = true →
      ∃ d ∈ FallbackMemory.search
          (FallbackMemory.add st messages u meta freshId now).1 q u limit,
        pyGetStr d "memory" "" = FallbackMemory.extractFirstContent messages ∧
        pyGetStr d "id" "" = freshId) ∧
    (freshId ∉ st.map (fun r => r.id) →
      (FallbackMemory.delete
        (FallbackMemory.add st messages u meta freshId now).1 freshId).2
        = true ∧
      ∀ d ∈ FallbackMemory.get_all
          (FallbackMemory.delete
            (FallbackMemory.add st messages u meta freshId now).1 freshId).1
          u limit2,
        pyGetStr d "id" "" ≠ freshId) := by
  refine ⟨?_, ?_, ?_⟩
  · intro hcount
    refine ⟨FallbackMemory.allDict
      (FallbackMemory.newRec messages u meta freshId now), ?_, rfl, rfl⟩
    have hfil : ((FallbackMemory.add st messages u meta freshId now).1).filter
        (fun r => r.user_id == u)
        = st.filter (fun r => r.user_id == u)
          ++ [FallbackMemory.newRec messages u meta freshId now] := by
      simp [FallbackMemory.add, List.filter_append, FallbackMemory.newRec]
    have hlen : ((st.filter (fun r => r.user_id == u)
        ++ [FallbackMemory.newRec messages u meta freshId now]).map
        FallbackMemory.allDict).length ≤ limit := by
      simp
      omega
    unfold FallbackMemory.get_all
    rw [hfil, List.take_of_length_le hlen]
    exact List.mem_map.mpr ⟨_, List.mem_append_right _ (List.mem_singleton_self _), rfl⟩
  · intro hcount hsub
    refine ⟨FallbackMemory.searchDict
      (FallbackMemory.newRec messages u meta freshId now), ?_, rfl, rfl⟩
    have hfil : ((FallbackMemory.add st messages u meta freshId now).1).filter
        (fun r => FallbackMemory.matchesQuery r q u)
        = st.filter (fun r => FallbackMemory.matchesQuery r q u)
          ++ [FallbackMemory.newRec messages u meta freshId now] := by
      simp [FallbackMemory.add, List.filter_append,
        FallbackMemory.matchesQuery, FallbackMemory.newRec, hsub]
    have hlen : ((st.filter (fun r => FallbackMemory.matchesQuery r q u)
        ++ [FallbackMemory.newRec messages u meta freshId now]).map
        FallbackMemory.searchDict).length ≤ limit := by
      simp
      omega
    unfold FallbackMemory.search
    rw [hfil, List.take_of_length_le hlen]
    exact List.mem_map.mpr ⟨_, List.mem_append_right _ (List.mem_singleton_self _), rfl⟩
  · intro hfresh
    have hany : ((FallbackMemory.add st messages u meta freshId now).1).any
        (fun r => r.id == freshId) = true := by
      simp [FallbackMemory.add, FallbackMemory.newRec]
    have hdel : FallbackMemory.pyDel freshId
        ((FallbackMemory.add st messages u meta freshId now).1) = st :=
      pyDel_append_fresh freshId _ rfl st hfresh
    constructor
    · simp [FallbackMemory.delete, hany]
    · intro d hd
      simp only [FallbackMemory.delete, hany, if_true, hdel] at hd
      unfold FallbackMemory.get_all at hd
      have hd2 := List.mem_of_mem_take hd
      rcases List.mem_map.mp hd2 with ⟨r, hr, rfl⟩
      have hrst : r ∈ st := List.mem_of_mem_filter hr
      have : r.id ∈ st.map (fun r => r.id) :=
        List.mem_map.mpr ⟨r, hrst, rfl⟩
      intro hEq
      have hid : pyGetStr (FallbackMemory.allDict r) "id" "" = r.id := rfl
      rw [hid] at hEq
      rw [hEq] at this
      exact hfresh this

/-- C3 (amended) witness: on an empty store, adding `"hello world"`,
retrieving it by get-all and by a case-insensitive substring search, and
deleting it again. -/
theorem C3_lifecycle_amended_witness :
    (∃ d ∈ FallbackMemory.get_all
        (FallbackMemory.add [] [⟨some "hello world", some "user"⟩] "u" []
          "f1" "t").1 "u" 10,
      pyGetStr d "memory" ""
        = FallbackMemory.extractFirstContent [⟨some "hello world", some "user"⟩] ∧
      pyGetStr d "id" "" = "f1") ∧
    (∃ d ∈ FallbackMemory.search
        (FallbackMemory.add [] [⟨some "hello world", some "user"⟩] "u" []
          "f1" "t").1 "World" "u" 10,
      pyGetStr d "memory" ""
        = FallbackMemory.extractFirstContent [⟨some "hello world", some "user"⟩] ∧
      pyGetStr d "id" "" = "f1") ∧
    ((FallbackMemory.delete
        (FallbackMemory.add [] [⟨some "hello world", some "user"⟩] "u" []
          "f1" "t").1 "f1").2 = true ∧
      ∀ d ∈ FallbackMemory.get_all
          (FallbackMemory.delete
            (FallbackMemory.add [] [⟨some "hello world", some "user"⟩] "u" []
              "f1" "t").1 "f1").1 "u" 10,
        pyGetStr d "id" "" ≠ "f1") :=
  ⟨(C3_lifecycle_amended [] [⟨some "hello world", some "user"⟩] "u" []
      "f1" "t" 10 10 "World").1 (by decide),
   (C3_lifecycle_amended [] [⟨some "hello world", some "user"⟩] "u" []
      "f1" "t" 10 10 "World").2.1 (by decide) (by decide),
   (C3_lifecycle_amended [] [⟨some "hello world", some "user"⟩] "u" []
      "f1" "t" 10 10 "World").2.2 (by decide)⟩
